import Mathlib

/-!
Verification of the productivity core of src/app.py of the
Employee Productivity Analysis System.

Shallow embedding: a pandas DataFrame of employee rows becomes a
Lean list of records, real numbers become rationals, and the pandas
Series.round(2) becomes exact decimal rounding to two places.  The
two core functions, calculate_productivity (app.py lines 57-84) and
generate_summary_stats (app.py lines 86-126), mutate only a local
table; mutation is made explicit by returning the table seen by the
caller together with the result, so that the frame property (the
input table of the caller is unchanged) is a statement about the
first component.
-/

/-- Constant FULLTIME_STANDARD_HOURS = 200 (app.py line 23). -/
def FULLTIME_STANDARD_HOURS : ℚ := 200

/-- Constant PARTTIME_STANDARD_HOURS = 100 (app.py line 24). -/
def PARTTIME_STANDARD_HOURS : ℚ := 100

/-- Constant HOURS_PER_LEAVE_DAY = 8 (app.py line 25). -/
def HOURS_PER_LEAVE_DAY : ℚ := 8

/-- Constant PRODUCTIVITY_THRESHOLD = 90 (app.py line 26). -/
def PRODUCTIVITY_THRESHOLD : ℚ := 90

/-- One input row: the six required columns of the uploaded table
(Employee_ID, Name, Department, Employment_Type, Actual_Hours,
Leave_Days).  Hours are real valued, modelled as rationals; leave
days are non-negative integers. -/
structure EmployeeRecord where
  employee_id : String
  name : String
  department : String
  employment_type : String
  actual_hours : ℚ
  leave_days : ℕ
deriving Repr, DecidableEq

/-- One output row: the input columns together with the columns that
calculate_productivity adds (Standard_Hours, Leave_Hours_Deduction,
Expected_Hours, Productivity_Percentage, Productivity_Status).  The
actual_hours field holds the display-rounded value of line 82. -/
structure EnrichedRecord where
  employee_id : String
  name : String
  department : String
  employment_type : String
  actual_hours : ℚ
  leave_days : ℕ
  standard_hours : ℚ
  leave_hours_deduction : ℚ
  expected_hours : ℚ
  productivity_percentage : ℚ
  productivity_status : String
deriving Repr, DecidableEq

/-- Series.round(2): decimal rounding to two places, Mathlib round
(round half up) on the value scaled by 100. -/
def round2 (q : ℚ) : ℚ := ((round (q * 100) : ℤ) : ℚ) / 100

/-- The lambda of app.py lines 62-64: FULLTIME_STANDARD_HOURS when
the Employment_Type equals the string Full-Time, otherwise
PARTTIME_STANDARD_HOURS (every other value falls into the else
branch, there is no error case in the code). -/
def standardHoursFor (x : String) : ℚ :=
  if x = "Full-Time" then FULLTIME_STANDARD_HOURS else PARTTIME_STANDARD_HOURS

/-- Row-wise effect of calculate_productivity (app.py lines 61-82):
every added column is an elementwise function of the row, so the
column assignments of the code amount to this per-row map.
Line 71 clips Expected_Hours from below at 1; line 74 computes the
percentage from the raw Actual_Hours and rounds it; lines 77-79
classify on the rounded percentage; line 82 rounds Actual_Hours for
display only, after the percentage has been computed. -/
def enrichRecord (r : EmployeeRecord) : EnrichedRecord :=
  let standard := standardHoursFor r.employment_type
  let deduction := (r.leave_days : ℚ) * HOURS_PER_LEAVE_DAY
  let expected := max 1 (standard - deduction)
  let pct := round2 (r.actual_hours / expected * 100)
  { employee_id := r.employee_id
    name := r.name
    department := r.department
    employment_type := r.employment_type
    actual_hours := round2 r.actual_hours
    leave_days := r.leave_days
    standard_hours := standard
    leave_hours_deduction := deduction
    expected_hours := expected
    productivity_percentage := pct
    productivity_status :=
      if pct ≥ PRODUCTIVITY_THRESHOLD then "Productive" else "Not Productive" }

/-- calculate_productivity (app.py lines 57-84).  Line 59 copies the
table, so all column assignments act on the copy; the pair returned
here is (table of the caller after the call, enriched result). -/
def calculate_productivity (df : List EmployeeRecord) :
    List EmployeeRecord × List EnrichedRecord :=
  (df, df.map enrichRecord)

/-- Series.mean(): the mean of a pandas series is NaN on an empty
series, modelled as none; otherwise sum over length. -/
def seriesMean (l : List ℚ) : Option ℚ :=
  if l.length = 0 then none else some (l.sum / (l.length : ℚ))

/-- Series.mean().round(2) as used throughout generate_summary_stats. -/
def meanRound2 (l : List ℚ) : Option ℚ := (seriesMean l).map round2

/-- The sub-summary built for a non-empty employment-type segment
(app.py lines 100-106 and 111-117). -/
structure SegmentStats where
  count : ℕ
  productive : ℕ
  not_productive : ℕ
  average_productivity : Option ℚ
  average_hours : Option ℚ
deriving Repr, DecidableEq

/-- Build the sub-summary of a segment (the bodies of the two guarded
blocks at app.py lines 100-106 and 111-117 are identical up to the
segment). -/
def segStats (seg : List EnrichedRecord) : SegmentStats :=
  { count := seg.length
    productive := (seg.filter (fun r => r.productivity_status = "Productive")).length
    not_productive := (seg.filter (fun r => r.productivity_status = "Not Productive")).length
    average_productivity := meanRound2 (seg.map (fun r => r.productivity_percentage))
    average_hours := meanRound2 (seg.map (fun r => r.actual_hours)) }

/-- department_stats (app.py lines 120-124): groupby Department, mean
of Productivity_Percentage rounded to 2 places and count of rows.
Every department occurring in the data yields exactly one entry; the
groupby of pandas sorts the keys, but the key order of the resulting
dict is immaterial to the mapping, so the entries are listed here in
order of first appearance. -/
def department_stats_of (df : List EnrichedRecord) :
    List (String × Option ℚ × ℕ) :=
  ((df.map (fun r => r.department)).dedup).map (fun d =>
    let sub := df.filter (fun r => r.department = d)
    (d, meanRound2 (sub.map (fun r => r.productivity_percentage)), sub.length))

/-- The summary dict returned by generate_summary_stats.  The empty
dicts assigned to fulltime_stats and parttime_stats when a segment is
empty are modelled as none. -/
structure SummaryStats where
  total_employees : ℕ
  productive_count : ℕ
  not_productive_count : ℕ
  average_productivity : Option ℚ
  fulltime_stats : Option SegmentStats
  parttime_stats : Option SegmentStats
  department_stats : List (String × Option ℚ × ℕ)
deriving Repr, DecidableEq

/-- generate_summary_stats (app.py lines 86-126).  The function only
reads the table; the pair returned is (table of the caller after the
call, summary). -/
def generate_summary_stats (df : List EnrichedRecord) :
    List EnrichedRecord × SummaryStats :=
  let ft := df.filter (fun r => r.employment_type = "Full-Time")
  let pt := df.filter (fun r => r.employment_type = "Part-Time")
  (df,
   { total_employees := df.length
     productive_count := (df.filter (fun r => r.productivity_status = "Productive")).length
     not_productive_count := (df.filter (fun r => r.productivity_status = "Not Productive")).length
     average_productivity := meanRound2 (df.map (fun r => r.productivity_percentage))
     fulltime_stats := if 0 < ft.length then some (segStats ft) else none
     parttime_stats := if 0 < pt.length then some (segStats pt) else none
     department_stats := department_stats_of df })

/-! Concrete records used in concrete evaluations. -/

/-- A record with an employment type outside the two recognised
values. -/
def contractorRecord : EmployeeRecord :=
  { employee_id := "EMP0001", name := "A", department := "Engineering"
    employment_type := "Contractor", actual_hours := 95, leave_days := 0 }

/-- A part-time record with enough leave days that the raw expected
hours are negative. -/
def heavyLeaveRecord : EmployeeRecord :=
  { employee_id := "EMP0002", name := "B", department := "Sales"
    employment_type := "Part-Time", actual_hours := 40, leave_days := 20 }

/-- Full-time, no leave, 180 actual hours: percentage exactly 90. -/
def boundary90Record : EmployeeRecord :=
  { employee_id := "EMP0003", name := "C", department := "HR"
    employment_type := "Full-Time", actual_hours := 180, leave_days := 0 }

/-- Full-time, no leave, 179.98 actual hours: percentage exactly
89.99. -/
def boundary8999Record : EmployeeRecord :=
  { employee_id := "EMP0004", name := "D", department := "HR"
    employment_type := "Full-Time", actual_hours := 17998 / 100, leave_days := 0 }

/-- Full-time, no leave, 179.99 actual hours: raw ratio 89.995, below
the threshold, rounding to 90.00. -/
def nearBoundaryRecord : EmployeeRecord :=
  { employee_id := "EMP0005", name := "E", department := "IT"
    employment_type := "Full-Time", actual_hours := 17999 / 100, leave_days := 0 }

/-- Part-time, 2 leave days (expected 84), 0.4243 actual hours: the
percentage from the raw hours is 0.51, while recomputing it from the
display-rounded hours would give 0.50. -/
def orderSensitiveRecord : EmployeeRecord :=
  { employee_id := "EMP0006", name := "F", department := "Finance"
    employment_type := "Part-Time", actual_hours := 4243 / 10000, leave_days := 2 }

/-- C2: expected_hours equals max 1 of standard hours minus 8 per
leave day, hence is at least 1, and equals exactly 1 as soon as the
raw difference is non-positive. -/
theorem expected_hours_floor (r : EmployeeRecord) :
    (enrichRecord r).expected_hours
        = max 1 ((enrichRecord r).standard_hours - (r.leave_days : ℚ) * 8) ∧
    1 ≤ (enrichRecord r).expected_hours ∧
    ((enrichRecord r).standard_hours - (r.leave_days : ℚ) * 8 ≤ 0 →
      (enrichRecord r).expected_hours = 1) := by
  refine ⟨rfl, le_max_left _ _, fun h => ?_⟩
  simp only [enrichRecord, HOURS_PER_LEAVE_DAY]
  exact max_eq_left (h.trans zero_le_one)

/-- C2 witness: at 20 leave days a part-time record has raw expected
hours 100 - 160 = -60, and the output expected hours are exactly 1. -/
theorem expected_hours_floor_witness :
    (enrichRecord heavyLeaveRecord).expected_hours = 1 :=
  (expected_hours_floor heavyLeaveRecord).2.2 (by
    simp [enrichRecord, heavyLeaveRecord, standardHoursFor,
      FULLTIME_STANDARD_HOURS, PARTTIME_STANDARD_HOURS, HOURS_PER_LEAVE_DAY]
    norm_num)

/-- The classification of app.py lines 77-79, as an equation on the
output record: helper used by several theorems below. -/
theorem status_eq (r : EmployeeRecord) :
    (enrichRecord r).productivity_status =
      if (enrichRecord r).productivity_percentage ≥ PRODUCTIVITY_THRESHOLD
      then "Productive" else "Not Productive" := rfl

/-- C3: productivity_status is Productive exactly when the rounded
productivity_percentage is at least 90 and Not Productive exactly
when it is below 90; a record whose percentage is exactly 90.00 is
Productive and one whose percentage is exactly 89.99 is Not
Productive. -/
theorem productivity_status_threshold (r : EmployeeRecord) :
    ((enrichRecord r).productivity_status = "Productive" ↔
      90 ≤ (enrichRecord r).productivity_percentage) ∧
    ((enrichRecord r).productivity_status = "Not Productive" ↔
      (enrichRecord r).productivity_percentage < 90) ∧
    (enrichRecord boundary90Record).productivity_percentage = 90 ∧
    (enrichRecord boundary90Record).productivity_status = "Productive" ∧
    (enrichRecord boundary8999Record).productivity_percentage = 8999 / 100 ∧
    (enrichRecord boundary8999Record).productivity_status = "Not Productive" := by
  have hthr : PRODUCTIVITY_THRESHOLD = (90 : ℚ) := rfl
  refine ⟨?_, ?_, ?_, ?_, ?_, ?_⟩
  · rw [status_eq, hthr]
    by_cases h : (90 : ℚ) ≤ (enrichRecord r).productivity_percentage
    · rw [if_pos h]; simp [h]
    · rw [if_neg h]; simp [h]
  · rw [status_eq, hthr]
    by_cases h : (90 : ℚ) ≤ (enrichRecord r).productivity_percentage
    · rw [if_pos h]; simp [not_lt.mpr h]
    · rw [if_neg h]; simp [not_le.mp h]
  · simp [enrichRecord, boundary90Record, standardHoursFor,
      FULLTIME_STANDARD_HOURS, HOURS_PER_LEAVE_DAY]
    norm_num [round2, round_eq]
  · rw [status_eq, hthr, if_pos]
    simp [enrichRecord, boundary90Record, standardHoursFor,
      FULLTIME_STANDARD_HOURS, HOURS_PER_LEAVE_DAY]
    norm_num [round2, round_eq]
  · simp [enrichRecord, boundary8999Record, standardHoursFor,
      FULLTIME_STANDARD_HOURS, HOURS_PER_LEAVE_DAY]
    norm_num [round2, round_eq]
  · rw [status_eq, hthr, if_neg]
    simp [enrichRecord, boundary8999Record, standardHoursFor,
      FULLTIME_STANDARD_HOURS, HOURS_PER_LEAVE_DAY]
    norm_num [round2, round_eq]

/-- C4: the calculator is a 1:1 row-wise map: the output has the
length of the input and the row at any index is the enrichment of the
input row at the same index, so order is preserved, nothing is
filtered or reordered, and no output row depends on another input
row. -/
theorem calculate_rowwise_map (df : List EmployeeRecord) (i : ℕ) :
    (calculate_productivity df).2.length = df.length ∧
    (calculate_productivity df).2[i]? = (df[i]?).map enrichRecord := by
  constructor
  · simp [calculate_productivity]
  · simp [calculate_productivity]

/-- C1 evaluation: on a record whose employment type is Contractor the
code raises no validation failure: calculate_productivity runs, falls
into the else branch of the lambda of lines 62-64 and silently
assigns the part-time standard hours of 100, returning a fully
enriched row. -/
theorem contractor_gets_default_hours :
    (calculate_productivity [contractorRecord]).2 =
      [{ employee_id := "EMP0001", name := "A", department := "Engineering"
         employment_type := "Contractor", actual_hours := 95, leave_days := 0
         standard_hours := PARTTIME_STANDARD_HOURS, leave_hours_deduction := 0
         expected_hours := 100, productivity_percentage := 95
         productivity_status := "Productive" }] := by
  simp only [calculate_productivity, List.map_cons, List.map_nil, List.cons.injEq, and_true]
  simp [enrichRecord, contractorRecord, standardHoursFor,
    PARTTIME_STANDARD_HOURS, HOURS_PER_LEAVE_DAY, EnrichedRecord.mk.injEq]
  norm_num [round2, round_eq, PRODUCTIVITY_THRESHOLD]

/-- C8: the productivity percentage is computed from the raw, not yet
rounded actual hours, and the actual hours are rounded separately for
display only; on a concrete record, feeding the rounded hours back
into the ratio would change the resulting percentage, so the order of
lines 74 and 82 matters. -/
theorem ratio_from_unrounded_hours (r : EmployeeRecord) :
    (enrichRecord r).productivity_percentage
        = round2 (r.actual_hours / (enrichRecord r).expected_hours * 100) ∧
    (enrichRecord r).actual_hours = round2 r.actual_hours ∧
    (enrichRecord orderSensitiveRecord).productivity_percentage ≠
      round2 (round2 orderSensitiveRecord.actual_hours /
        (enrichRecord orderSensitiveRecord).expected_hours * 100) := by
  refine ⟨rfl, rfl, ?_⟩
  simp [enrichRecord, orderSensitiveRecord, standardHoursFor,
    PARTTIME_STANDARD_HOURS, FULLTIME_STANDARD_HOURS, HOURS_PER_LEAVE_DAY]
  norm_num [round2, round_eq]

/-- C10: the classification acts on the rounded percentage, so any
record whose raw ratio is at least 89.995 (hence rounding to 90.00 or
more) is classified Productive, even when the raw ratio itself is
still below 90. -/
theorem classification_on_rounded_pct (r : EmployeeRecord)
    (h : (17999 : ℚ) / 200 ≤ r.actual_hours / (enrichRecord r).expected_hours * 100) :
    90 ≤ (enrichRecord r).productivity_percentage ∧
    (enrichRecord r).productivity_status = "Productive" := by
  have hpct : (enrichRecord r).productivity_percentage =
      round2 (r.actual_hours / (enrichRecord r).expected_hours * 100) := rfl
  have h9 : (9000 : ℤ) ≤
      round (r.actual_hours / (enrichRecord r).expected_hours * 100 * 100) := by
    rw [round_eq, Int.le_floor]
    push_cast
    nlinarith
  have hge : 90 ≤ (enrichRecord r).productivity_percentage := by
    rw [hpct]
    unfold round2
    have h9q : (9000 : ℚ) ≤
        ((round (r.actual_hours / (enrichRecord r).expected_hours * 100 * 100) : ℤ) : ℚ) := by
      exact_mod_cast h9
    linarith
  refine ⟨hge, ?_⟩
  rw [status_eq,
    if_pos (show (enrichRecord r).productivity_percentage ≥ PRODUCTIVITY_THRESHOLD from hge)]

/-- C10 witness: full-time, no leave, 179.99 actual hours: the raw
ratio is exactly 89.995, below the threshold, yet the record is
classified Productive. -/
theorem classification_on_rounded_pct_witness :
    90 ≤ (enrichRecord nearBoundaryRecord).productivity_percentage ∧
    (enrichRecord nearBoundaryRecord).productivity_status = "Productive" :=
  classification_on_rounded_pct nearBoundaryRecord (by
    simp [enrichRecord, nearBoundaryRecord, standardHoursFor,
      FULLTIME_STANDARD_HOURS, HOURS_PER_LEAVE_DAY]
    norm_num)

/-- A small concrete enriched table: one productive full-time row and
one not productive part-time row, in two departments. -/
def sampleEnriched : List EnrichedRecord :=
  [ { employee_id := "EMP0003", name := "C", department := "HR"
      employment_type := "Full-Time", actual_hours := 180, leave_days := 0
      standard_hours := 200, leave_hours_deduction := 0, expected_hours := 200
      productivity_percentage := 90, productivity_status := "Productive" },
    { employee_id := "EMP0002", name := "B", department := "Sales"
      employment_type := "Part-Time", actual_hours := 40, leave_days := 20
      standard_hours := 100, leave_hours_deduction := 160, expected_hours := 1
      productivity_percentage := 4000, productivity_status := "Not Productive" } ]

/-- C5: empty input is not an error: the calculator returns the empty
table, and the summary has zero totals and counts, a missing average
(the NaN a pandas mean yields on an empty series, modelled as none),
absent segment summaries and no department entries; no exception and
no division error occurs since every branch is total. -/
theorem empty_input_behavior :
    (calculate_productivity []).2 = [] ∧
    (generate_summary_stats []).2 =
      { total_employees := 0, productive_count := 0, not_productive_count := 0
        average_productivity := none, fulltime_stats := none
        parttime_stats := none, department_stats := [] } :=
  ⟨rfl, rfl⟩

/-- On a table whose every row carries one of the two classification
strings, the rows classified Productive and those classified Not
Productive partition the table: helper for the count identity. -/
theorem filter_status_partition (l : List EnrichedRecord)
    (h : ∀ r ∈ l, r.productivity_status = "Productive" ∨
        r.productivity_status = "Not Productive") :
    (l.filter (fun r => r.productivity_status = "Productive")).length
      + (l.filter (fun r => r.productivity_status = "Not Productive")).length
      = l.length := by
  induction l with
  | nil => rfl
  | cons a l ih =>
    have hl := ih (fun r hr => h r (List.mem_cons_of_mem a hr))
    rcases h a (List.mem_cons_self a l) with ha | ha <;>
      simp [List.filter_cons, ha] <;> omega

/-- C6: in every summary, the productive count plus the not
productive count equals the total number of employees, because each
enriched row carries exactly one of the two classification strings. -/
theorem counts_partition (df : List EnrichedRecord)
    (h : ∀ r ∈ df, r.productivity_status = "Productive" ∨
        r.productivity_status = "Not Productive") :
    (generate_summary_stats df).2.productive_count
      + (generate_summary_stats df).2.not_productive_count
      = (generate_summary_stats df).2.total_employees :=
  filter_status_partition df h

/-- C6 witness: on the two-row sample table the counts 1 and 1 add up
to the total 2. -/
theorem counts_partition_witness :
    (generate_summary_stats sampleEnriched).2.productive_count
      + (generate_summary_stats sampleEnriched).2.not_productive_count
      = (generate_summary_stats sampleEnriched).2.total_employees :=
  counts_partition sampleEnriched (by decide)

/-- The keys of department_stats are exactly the departments of the
table, deduplicated: helper for the completeness of the department
statistics. -/
theorem department_stats_keys (df : List EnrichedRecord) :
    ((generate_summary_stats df).2.department_stats).map (fun e => e.1)
      = (df.map (fun r => r.department)).dedup := by
  show (department_stats_of df).map (fun e => e.1) = _
  simp only [department_stats_of, List.map_map]
  exact List.map_id _

/-- C7: a segment summary is absent exactly when the segment has no
members; on a non-empty segment it is present and holds the count,
the productive and not productive counts, and the average
productivity and average hours, all computed over that segment only;
and the department statistics contain an entry for a department
exactly when some row belongs to it, with no size threshold. -/
theorem segment_and_department_stats (df : List EnrichedRecord) (d : String) :
    ((generate_summary_stats df).2.fulltime_stats = none ↔
      df.filter (fun r => r.employment_type = "Full-Time") = []) ∧
    ((generate_summary_stats df).2.parttime_stats = none ↔
      df.filter (fun r => r.employment_type = "Part-Time") = []) ∧
    (df.filter (fun r => r.employment_type = "Full-Time") ≠ [] →
      (generate_summary_stats df).2.fulltime_stats = some
        { count := (df.filter (fun r => r.employment_type = "Full-Time")).length
          productive := ((df.filter (fun r => r.employment_type = "Full-Time")).filter
              (fun r => r.productivity_status = "Productive")).length
          not_productive := ((df.filter (fun r => r.employment_type = "Full-Time")).filter
              (fun r => r.productivity_status = "Not Productive")).length
          average_productivity := meanRound2 ((df.filter
              (fun r => r.employment_type = "Full-Time")).map
              (fun r => r.productivity_percentage))
          average_hours := meanRound2 ((df.filter
              (fun r => r.employment_type = "Full-Time")).map
              (fun r => r.actual_hours)) }) ∧
    (df.filter (fun r => r.employment_type = "Part-Time") ≠ [] →
      (generate_summary_stats df).2.parttime_stats = some
        { count := (df.filter (fun r => r.employment_type = "Part-Time")).length
          productive := ((df.filter (fun r => r.employment_type = "Part-Time")).filter
              (fun r => r.productivity_status = "Productive")).length
          not_productive := ((df.filter (fun r => r.employment_type = "Part-Time")).filter
              (fun r => r.productivity_status = "Not Productive")).length
          average_productivity := meanRound2 ((df.filter
              (fun r => r.employment_type = "Part-Time")).map
              (fun r => r.productivity_percentage))
          average_hours := meanRound2 ((df.filter
              (fun r => r.employment_type = "Part-Time")).map
              (fun r => r.actual_hours)) }) ∧
    ((∃ r ∈ df, r.department = d) ↔
      d ∈ ((generate_summary_stats df).2.department_stats).map (fun e => e.1)) := by
  have hft : (generate_summary_stats df).2.fulltime_stats
      = if 0 < (df.filter (fun r => r.employment_type = "Full-Time")).length
        then some (segStats (df.filter (fun r => r.employment_type = "Full-Time")))
        else none := rfl
  have hpt : (generate_summary_stats df).2.parttime_stats
      = if 0 < (df.filter (fun r => r.employment_type = "Part-Time")).length
        then some (segStats (df.filter (fun r => r.employment_type = "Part-Time")))
        else none := rfl
  refine ⟨?_, ?_, ?_, ?_, ?_⟩
  · rw [hft]
    by_cases h : df.filter (fun r => r.employment_type = "Full-Time") = []
    · simp [h]
    · simp [h, if_pos (List.length_pos.mpr h)]
  · rw [hpt]
    by_cases h : df.filter (fun r => r.employment_type = "Part-Time") = []
    · simp [h]
    · simp [h, if_pos (List.length_pos.mpr h)]
  · intro h
    rw [hft, if_pos (List.length_pos.mpr h)]
    rfl
  · intro h
    rw [hpt, if_pos (List.length_pos.mpr h)]
    rfl
  · rw [department_stats_keys, List.mem_dedup]
    constructor
    · rintro ⟨r, hr, hd⟩
      exact List.mem_map.mpr ⟨r, hr, hd⟩
    · intro h
      rcases List.mem_map.mp h with ⟨r, hr, hd⟩
      exact ⟨r, hr, hd⟩

/-- C7 witness: on the two-row sample table the full-time segment is
non-empty and its sub-summary is the one computed over the single
full-time row. -/
theorem segment_and_department_stats_witness :
    (generate_summary_stats sampleEnriched).2.fulltime_stats = some
      { count := (sampleEnriched.filter (fun r => r.employment_type = "Full-Time")).length
        productive := ((sampleEnriched.filter (fun r => r.employment_type = "Full-Time")).filter
            (fun r => r.productivity_status = "Productive")).length
        not_productive := ((sampleEnriched.filter (fun r => r.employment_type = "Full-Time")).filter
            (fun r => r.productivity_status = "Not Productive")).length
        average_productivity := meanRound2 ((sampleEnriched.filter
            (fun r => r.employment_type = "Full-Time")).map
            (fun r => r.productivity_percentage))
        average_hours := meanRound2 ((sampleEnriched.filter
            (fun r => r.employment_type = "Full-Time")).map
            (fun r => r.actual_hours)) } :=
  (segment_and_department_stats sampleEnriched "HR").2.2.1 (by decide)

/-- C9: neither core function changes the table of its caller: the
calculator works on the copy made at line 59 and returns a new
enriched table, and the aggregator only reads its input while
building a fresh summary structure.  With the table state passed
explicitly, the table seen by the caller after either call is the
table it passed in. -/
theorem core_preserves_input (df : List EmployeeRecord) (edf : List EnrichedRecord) :
    (calculate_productivity df).1 = df ∧ (generate_summary_stats edf).1 = edf :=
  ⟨rfl, rfl⟩
